import Mathlib

set_option maxRecDepth 8000

/-
Shallow embedding of the inference-session bridge in
src/android/app/src/main/cpp/llama_jni.cpp.

The file has two compilation modes selected by the LLAMA_STUB preprocessor
switch; both are embedded. The external inference library (llama.cpp) is
modelled by environment records whose fields stand for the results of the
external calls made during one bridge operation. Strings crossing the JNI
boundary are modelled as their UTF-8 byte sequences (lists of byte values),
matching GetStringUTFChars / NewStringUTF.
-/

/-- UTF-8 encoding of one character, as produced by the JNI string conversion
(GetStringUTFChars); code points below 0x80 are single bytes, larger ones are
multi-byte sequences. -/
def utf8Char (c : Char) : List Nat :=
  let n := c.toNat
  if n < 0x80 then [n]
  else if n < 0x800 then [0xC0 ||| (n >>> 6), 0x80 ||| (n &&& 0x3F)]
  else if n < 0x10000 then
    [0xE0 ||| (n >>> 12), 0x80 ||| ((n >>> 6) &&& 0x3F), 0x80 ||| (n &&& 0x3F)]
  else
    [0xF0 ||| (n >>> 18), 0x80 ||| ((n >>> 12) &&& 0x3F),
     0x80 ||| ((n >>> 6) &&& 0x3F), 0x80 ||| (n &&& 0x3F)]

/-- UTF-8 byte sequence of a string as it crosses the JNI boundary. -/
def utf8 (s : String) : List Nat := s.data.flatMap utf8Char

/-- llama_token is a 32-bit integer. -/
abbrev Token := Int

/-- Opaque handle standing for a llama_model pointer value. -/
abbrev ModelHandle := Nat

/-- Opaque handle standing for a llama_context pointer value. -/
abbrev CtxHandle := Nat

/-- Process-wide state of the real (non-stub) compilation mode: the file-scope
globals g_model, g_ctx, g_model_loaded, g_cancel_generation
(llama_jni.cpp lines 25-29). -/
structure RealState where
  model : Option ModelHandle
  ctx : Option CtxHandle
  model_loaded : Bool
  cancel_generation : Bool
deriving Repr, DecidableEq

/-- Fresh-process state: all handles null, both flags false. -/
def initialRealState : RealState :=
  { model := none, ctx := none, model_loaded := false, cancel_generation := false }

/-- Context parameters filled in at llama_jni.cpp lines 105-108. -/
structure CtxParams where
  n_ctx : Int
  n_threads : Int
  n_threads_batch : Int
deriving Repr, DecidableEq

/-- Lines 106-108: resolve the requested context size and thread count,
substituting the defaults 2048 and 4 when the request is not positive, and
apply the thread count to both n_threads and n_threads_batch. -/
def resolveCtxParams (nCtx nThreads : Int) : CtxParams :=
  { n_ctx := if nCtx > 0 then nCtx else 2048
    n_threads := if nThreads > 0 then nThreads else 4
    n_threads_batch := if nThreads > 0 then nThreads else 4 }

/-- Results of the external llama.cpp constructor calls made by one
nativeLoadModel invocation: llama_load_model_from_file (none models a null
return) and llama_new_context_with_model (none models a null return). -/
structure LoadEnv where
  loadModelFromFile : Option ModelHandle
  newContextWithModel : ModelHandle → CtxParams → Option CtxHandle

/-- Java_com_guildofsmiths_trademesh_ai_LlamaInference_nativeLoadModel,
real mode (lines 76-129). Returns the jboolean result and the new state.
Lines 83-90 free any existing context and model (without touching
g_model_loaded); line 97 loads the model, lines 98-102 return false on a null
model; line 111 builds the context from the resolved parameters, lines 112-118
free the model and return false on a null context; lines 120, 128 set
g_model_loaded and return true on success. -/
def nativeLoadModel (env : LoadEnv) (s : RealState) (_path : String)
    (nCtx nThreads : Int) : Bool × RealState :=
  let s0 := { s with ctx := none, model := none }
  match env.loadModelFromFile with
  | none => (false, s0)
  | some m =>
    let s1 := { s0 with model := some m }
    match env.newContextWithModel m (resolveCtxParams nCtx nThreads) with
    | none => (false, { s1 with model := none })
    | some c => (true, { s1 with ctx := some c, model_loaded := true })

/-- nativeInit, real mode (lines 43-58): llama_backend_init has no effect on
the modelled state; returns JNI_TRUE. -/
def nativeInit (s : RealState) : Bool × RealState := (true, s)

/-- nativeUnloadModel, real mode (lines 260-282): free context then model,
clear both, set g_model_loaded = false. The cancel flag is not touched. -/
def nativeUnloadModel (s : RealState) : RealState :=
  { s with ctx := none, model := none, model_loaded := false }

/-- nativeCancelGeneration, real mode (lines 246-255): set the cancel flag. -/
def nativeCancelGeneration (s : RealState) : RealState :=
  { s with cancel_generation := true }

/-- nativeIsModelLoaded (lines 287-293). -/
def nativeIsModelLoaded (s : RealState) : Bool := s.model_loaded

/-- nativeFree, real mode (lines 298-312): performs nativeUnloadModel, then
llama_backend_free (no modelled effect). -/
def nativeFree (s : RealState) : RealState := nativeUnloadModel s

/-- Entry of a llama_batch, as filled by llama_batch_add: token id, position,
single sequence id, and the per-token logits request flag. -/
structure BatchEntry where
  token : Token
  pos : Int
  seqId : Nat
  logits : Bool
deriving Repr, DecidableEq, Inhabited

/-- Write true into the logits slot at index i of a batch, modelling the array
store batch.logits[i] = true. -/
def setLogitsAt : List BatchEntry → Nat → List BatchEntry
  | [], _ => []
  | e :: rest, 0 => { e with logits := true } :: rest
  | e :: rest, i + 1 => e :: setLogitsAt rest i

/-- Lines 183-185: llama_batch_add for every prompt token at its positional
index, sequence id 0, logits not requested. -/
def addedPromptEntries (ts : List Token) : List BatchEntry :=
  ts.enum.map fun it =>
    { token := it.2, pos := (it.1 : Int), seqId := 0, logits := false }

/-- Lines 182-186: the prefill batch — every prompt token added in order, then
batch.logits[batch.n_tokens - 1] = true. -/
def promptBatch (ts : List Token) : List BatchEntry :=
  setLogitsAt (addedPromptEntries ts) ((addedPromptEntries ts).length - 1)

/-- Line 218: the single-token batch submitted for one generation step. -/
def stepBatch (t : Token) (pos : Int) : List BatchEntry :=
  [{ token := t, pos := pos, seqId := 0, logits := true }]

/-- Results of the external llama.cpp calls made by one nativeGenerate
invocation, plus the values the concurrent environment supplies for the
atomic cancel flag.

* tokenize — llama_tokenize on the prompt bytes; none models a negative
  token count (line 171).
* decode — llama_decode on a batch; true models a zero return.
* sample — the token produced by llama_sample_token_greedy at generation
  step k (the evolving context state is abstracted into the step index).
* isEog — llama_token_is_eog.
* tokenToPiece — the full byte piece of a token. llama_token_to_piece into
  the 128-byte buffer at line 210 returns the piece length when it fits and
  a negative count otherwise, writing nothing; see tokenToPieceRet.
* cancelAt — the value of g_cancel_generation read by the loop condition at
  iteration k; concurrent nativeCancelGeneration calls make it true. -/
structure GenEnv where
  tokenize : List Nat → Option (List Token)
  decode : List BatchEntry → Bool
  sample : Nat → Token
  isEog : Token → Bool
  tokenToPiece : Token → List Nat
  cancelAt : Nat → Bool

/-- Return value of llama_token_to_piece(g_model, t, buf, 128, false): the
piece length when it fits the 128-byte buffer, the negated required size
otherwise (line 211). -/
def tokenToPieceRet (env : GenEnv) (t : Token) : Int :=
  if (env.tokenToPiece t).length ≤ 128 then ((env.tokenToPiece t).length : Int)
  else -(((env.tokenToPiece t).length : Int))

/-- The generation while-loop of lines 196-227. fuel is maxTokens - n_gen,
k is n_gen, pos is n_cur, acc is the accumulated result string. Each
iteration checks the cancel flag, samples a token, stops on end-of-generation,
appends the token piece when the conversion returned a positive count,
submits the single-token batch, and stops on decode failure. Returns the
output bytes and the final n_gen. -/
def genLoop (env : GenEnv) : Nat → Nat → Int → List Nat → List Nat × Nat
  | 0, k, _, acc => (acc, k)
  | fuel + 1, k, pos, acc =>
    if env.cancelAt k then (acc, k)
    else
      let t := env.sample k
      if env.isEog t then (acc, k)
      else
        let n := tokenToPieceRet env t
        let acc1 := if 0 < n then acc ++ (env.tokenToPiece t).take n.toNat else acc
        if env.decode (stepBatch t pos) then genLoop env fuel (k + 1) (pos + 1) acc1
        else (acc1, k)

/-- Sentinel returned at lines 149-152. -/
def errNotLoaded : List Nat := utf8 "[Error: Model not loaded]"

/-- Sentinel returned at lines 160-163. -/
def errNotInitialized : List Nat := utf8 "[Error: Context not initialized]"

/-- Sentinel returned at lines 171-175. -/
def errTokenization : List Nat := utf8 "[Error: Tokenization failed]"

/-- Sentinel returned at lines 188-193. -/
def errDecoding : List Nat := utf8 "[Error: Decoding failed]"

/-- Java_com_guildofsmiths_trademesh_ai_LlamaInference_nativeGenerate,
real mode (lines 139-241). Order of effects: the g_model_loaded check at line
149 returns the sentinel before anything else happens; line 157 resets the
cancel flag; lines 160-163 are the defensive null-handle check; tokenize,
prefill decode of the prompt batch, then the generation loop starting at
n_cur = n_tokens. The temperature argument is accepted and unused (greedy
sampling). The returned state carries the cancel value this call last wrote;
later concurrent writes are environment actions outside the call. -/
def nativeGenerate (env : GenEnv) (s : RealState) (prompt : String)
    (maxTokens : Int) (_temperature : Float) : List Nat × RealState :=
  if s.model_loaded = false then (errNotLoaded, s)
  else
    let cstr := utf8 prompt
    let s1 := { s with cancel_generation := false }
    if s1.ctx = none ∨ s1.model = none then (errNotInitialized, s1)
    else
      match env.tokenize cstr with
      | none => (errTokenization, s1)
      | some ts =>
        if env.decode (promptBatch ts) then
          ((genLoop env maxTokens.toNat 0 (ts.length : Int) []).1, s1)
        else (errDecoding, s1)

/-- Process-wide state of the stub compilation mode (lines 33-35):
g_model_loaded and g_cancel_generation. -/
structure StubState where
  model_loaded : Bool
  cancel_generation : Bool
deriving Repr, DecidableEq

/-- Fresh-process stub state. -/
def initialStubState : StubState :=
  { model_loaded := false, cancel_generation := false }

/-- nativeLoadModel, stub mode (lines 122-128): record the logically-loaded
state and return true; the path is only logged. -/
def stubLoadModel (s : StubState) (_path : String) (_nCtx _nThreads : Int) :
    Bool × StubState :=
  (true, { s with model_loaded := true })

/-- nativeUnloadModel, stub mode (line 280). -/
def stubUnloadModel (s : StubState) : StubState :=
  { s with model_loaded := false }

/-- nativeCancelGeneration, stub mode: the flag store at line 253 is inside
the non-stub conditional, so the stub operation has no effect. -/
def stubCancelGeneration (s : StubState) : StubState := s

/-- Lines 233-235: the stub response — the fixed text followed by
std::string(prompt_cstr).substr(0, 50), i.e. the first 50 bytes of the UTF-8
prompt, followed by three dots. -/
def stubResponse (prompt : String) : List Nat :=
  utf8 "[Stub Response] Model not compiled. Your prompt was: "
    ++ (utf8 prompt).take 50 ++ utf8 "..."

/-- nativeGenerate, stub mode (lines 147-157 and 231-241): the g_model_loaded
check and the cancel-flag reset are shared with the real mode; the stub branch
then returns stubResponse. -/
def stubGenerate (s : StubState) (prompt : String) (_maxTokens : Int)
    (_temperature : Float) : List Nat × StubState :=
  if s.model_loaded = false then (errNotLoaded, s)
  else (stubResponse prompt, { s with cancel_generation := false })

/-- Reading of the stub contract P9 as the claim states it: the fixed text
followed by the first 50 characters of the prompt followed by three dots,
encoded as the returned UTF-8 bytes. -/
def specStubResponse (prompt : String) : List Nat :=
  utf8 ("[Stub Response] Model not compiled. Your prompt was: "
    ++ prompt.take 50 ++ "...")

/-- Piece contributed to the output by generation step k: the full byte piece
when it fits the 128-byte conversion buffer, nothing otherwise (an empty piece
also contributes nothing, matching the strict positivity test at line 212). -/
def keptPiece (env : GenEnv) (k : Nat) : List Nat :=
  if (env.tokenToPiece (env.sample k)).length ≤ 128
  then env.tokenToPiece (env.sample k) else []

/-- Output accumulated by the first e generation steps when none of them
stops the loop. -/
def accumPieces (env : GenEnv) : Nat → List Nat
  | 0 => []
  | e + 1 => accumPieces env e ++ keptPiece env e

/-- Step j of the generation loop started at position pos0 runs to completion:
no cancellation observed, the sampled token is not end-of-generation, and the
single-token decode succeeds. -/
def cleanStep (env : GenEnv) (pos0 : Int) (j : Nat) : Prop :=
  env.cancelAt j = false ∧ env.isEog (env.sample j) = false ∧
    env.decode (stepBatch (env.sample j) (pos0 + j)) = true

/-- Load environment in which both external constructors succeed. -/
def loadEnvOk : LoadEnv :=
  { loadModelFromFile := some 1, newContextWithModel := fun _ _ => some 1 }

/-- Load environment in which llama_load_model_from_file returns null. -/
def loadEnvModelFail : LoadEnv :=
  { loadModelFromFile := none, newContextWithModel := fun _ _ => none }

/-- Real-mode state right after a successful load. -/
def sLoaded : RealState :=
  { model := some 1, ctx := some 1, model_loaded := true,
    cancel_generation := false }

/-- Generation environment in which every external call fails or is inert. -/
def envTriv : GenEnv :=
  { tokenize := fun _ => none, decode := fun _ => false, sample := fun _ => 0,
    isEog := fun _ => false, tokenToPiece := fun _ => [], cancelAt := fun _ => false }

/-- Generation environment in which cancellation is observed at the very first
loop iteration. -/
def envCancel : GenEnv :=
  { tokenize := fun _ => some [1], decode := fun _ => true, sample := fun _ => 7,
    isEog := fun _ => false, tokenToPiece := fun _ => [65],
    cancelAt := fun _ => true }

/-- Generation environment in which the first sampled token is the
end-of-generation marker. -/
def envEog : GenEnv :=
  { tokenize := fun _ => some [1, 2], decode := fun _ => true,
    sample := fun _ => 9, isEog := fun _ => true, tokenToPiece := fun _ => [66],
    cancelAt := fun _ => false }

/-- Generation environment in which the sampled token has a 129-byte piece,
one byte larger than the conversion buffer at line 210. -/
def env129 : GenEnv :=
  { tokenize := fun _ => some [7], decode := fun _ => true, sample := fun _ => 5,
    isEog := fun _ => false, tokenToPiece := fun _ => List.replicate 129 65,
    cancelAt := fun _ => false }

/-- Generation environment producing ordinary one-byte pieces. -/
def envPlain : GenEnv :=
  { tokenize := fun _ => some [3, 4], decode := fun _ => true,
    sample := fun k => (k : Int), isEog := fun _ => false,
    tokenToPiece := fun _ => [88], cancelAt := fun _ => false }

/-- Prompt of 26 two-byte characters: 26 characters but 52 UTF-8 bytes. -/
def multibytePrompt : String := "éééééééééééééééééééééééééé"

/-- Unfolding of the accumulator update at lines 210-214: a piece that fits
the buffer is appended whole, anything else leaves the output untouched. -/
theorem acc_update_eq_keptPiece (env : GenEnv) (k : Nat) (acc : List Nat) :
    (if 0 < tokenToPieceRet env (env.sample k)
     then acc ++ (env.tokenToPiece (env.sample k)).take
            (tokenToPieceRet env (env.sample k)).toNat
     else acc) = acc ++ keptPiece env k := by
  unfold tokenToPieceRet keptPiece
  by_cases h : (env.tokenToPiece (env.sample k)).length ≤ 128
  · by_cases h0 : 0 < (env.tokenToPiece (env.sample k)).length
    · simp [h, h0, List.take_of_length_le]
    · have hz : (env.tokenToPiece (env.sample k)).length = 0 := by omega
      simp [h, hz, List.length_eq_zero.mp hz]
  · have : ¬(0 : Int) < -(((env.tokenToPiece (env.sample k)).length : Int)) := by
      omega
    simp [h, this]

/-- One clean loop iteration advances the loop by a single step. -/
theorem genLoop_succ_clean (env : GenEnv) (fuel k : Nat) (pos : Int)
    (acc : List Nat) (hc : env.cancelAt k = false)
    (he : env.isEog (env.sample k) = false)
    (hd : env.decode (stepBatch (env.sample k) pos) = true) :
    genLoop env (fuel + 1) k pos acc
      = genLoop env fuel (k + 1) (pos + 1) (acc ++ keptPiece env k) := by
  rw [genLoop]
  simp only [hc, he, hd, if_false, if_true, Bool.false_eq_true, ite_false,
    acc_update_eq_keptPiece]

/-- Running the loop over d consecutive clean steps accumulates exactly the
pieces of those steps. -/
theorem genLoop_advance (env : GenEnv) (pos0 : Int) :
    ∀ (d s fuel : Nat), (∀ j, s ≤ j → j < s + d → cleanStep env pos0 j) →
    d ≤ fuel →
    genLoop env fuel s (pos0 + s) (accumPieces env s)
      = genLoop env (fuel - d) (s + d) (pos0 + (s + d)) (accumPieces env (s + d)) := by
  intro d
  induction d with
  | zero => intro s fuel _ _; simp
  | succ d ih =>
    intro s fuel hclean hle
    obtain ⟨f, rfl⟩ : ∃ f, fuel = f + 1 := ⟨fuel - 1, by omega⟩
    have h0 := hclean s (le_refl s) (by omega)
    rw [genLoop_succ_clean env f s (pos0 + s) _ h0.1 h0.2.1 h0.2.2]
    have hcast : pos0 + (s : Int) + 1 = pos0 + ((s + 1 : Nat) : Int) := by
      push_cast; ring
    rw [hcast]
    have hacc : accumPieces env s ++ keptPiece env s = accumPieces env (s + 1) := rfl
    rw [hacc, ih (s + 1) f (by intro j h1 h2; exact hclean j (by omega) (by omega))
      (by omega)]
    have h1 : f - d = f + 1 - (d + 1) := by omega
    have h2 : s + 1 + d = s + (d + 1) := by omega
    rw [h1, h2]
    congr 1
    push_cast
    ring

/-- The loop output is always the accumulation of some number of clean steps,
bounded by the remaining token budget, none of which sampled the
end-of-generation marker. -/
theorem genLoop_output_exists (env : GenEnv) :
    ∀ (fuel s : Nat) (pos0 : Int), ∃ d, d ≤ fuel ∧
      (genLoop env fuel s (pos0 + s) (accumPieces env s)).1 = accumPieces env (s + d)
      ∧ ∀ j, s ≤ j → j < s + d → env.isEog (env.sample j) = false := by
  intro fuel
  induction fuel with
  | zero =>
    intro s pos0
    exact ⟨0, le_refl 0, by simp [genLoop], by intro j h1 h2; omega⟩
  | succ fuel ih =>
    intro s pos0
    by_cases hc : env.cancelAt s
    · exact ⟨0, by omega, by simp [genLoop, hc], by intro j h1 h2; omega⟩
    by_cases he : env.isEog (env.sample s)
    · exact ⟨0, by omega, by simp [genLoop, hc, he], by intro j h1 h2; omega⟩
    by_cases hd : env.decode (stepBatch (env.sample s) (pos0 + s))
    · rw [genLoop_succ_clean env fuel s (pos0 + s) _ (by simpa using hc)
        (by simpa using he) hd]
      have hcast : pos0 + (s : Int) + 1 = pos0 + ((s + 1 : Nat) : Int) := by
        push_cast; ring
      have hacc : accumPieces env s ++ keptPiece env s = accumPieces env (s + 1) := rfl
      rw [hcast, hacc]
      obtain ⟨d, hdle, hout, heog⟩ := ih (s + 1) pos0
      refine ⟨d + 1, by omega, ?_, ?_⟩
      · rw [hout]; congr 1; omega
      · intro j h1 h2
        rcases Nat.eq_or_lt_of_le h1 with rfl | hlt
        · simpa using he
        · exact heog j (by omega) (by omega)
    · refine ⟨1, by omega, ?_, ?_⟩
      · rw [genLoop]
        simp only [Bool.not_eq_true] at hc he
        simp only [hc, he, Bool.false_eq_true, if_false, ite_false,
          acc_update_eq_keptPiece]
        simp [hd, accumPieces]
      · intro j h1 h2
        have : j = s := by omega
        subst this
        simpa using he

/-- Cancellation observed at iteration k after k clean steps makes the loop
return exactly the output accumulated by those steps. -/
theorem genLoop_cancel_observed (env : GenEnv) (pos0 : Int) (k fuel : Nat)
    (hclean : ∀ j, j < k → cleanStep env pos0 j)
    (hk : k < fuel) (hcancel : env.cancelAt k = true) :
    genLoop env fuel 0 pos0 [] = (accumPieces env k, k) := by
  have h0 : genLoop env fuel 0 pos0 [] = genLoop env fuel 0 (pos0 + (0 : Nat)) (accumPieces env 0) := by
    simp [accumPieces]
  rw [h0, genLoop_advance env pos0 k 0 fuel
    (by intro j h1 h2; exact hclean j (by omega)) (by omega)]
  obtain ⟨f, hf⟩ : ∃ f, fuel - k = f + 1 := ⟨fuel - k - 1, by omega⟩
  rw [hf, genLoop]
  simp [hcancel]

/-- The accumulated output is the flat concatenation of the kept pieces of the
individual steps. -/
theorem accumPieces_eq_join (env : GenEnv) (e : Nat) :
    accumPieces env e = ((List.range e).map (keptPiece env)).flatten := by
  induction e with
  | zero => rfl
  | succ e ih =>
    rw [accumPieces, ih, List.range_succ]
    simp

/-- Writing one logits slot preserves the batch length. -/
theorem setLogitsAt_length (l : List BatchEntry) (i : Nat) :
    (setLogitsAt l i).length = l.length := by
  induction l generalizing i with
  | nil => rfl
  | cons e rest ih =>
    cases i with
    | zero => simp [setLogitsAt]
    | succ i => simp [setLogitsAt, ih]

/-- Entries of a batch after writing the logits slot at index j. -/
theorem setLogitsAt_getD (l : List BatchEntry) (j i : Nat) (h : i < l.length) :
    (setLogitsAt l j).getD i default
      = if i = j then { l.getD i default with logits := true }
        else l.getD i default := by
  induction l generalizing j i with
  | nil => simp at h
  | cons e rest ih =>
    cases j with
    | zero =>
      cases i with
      | zero => simp [setLogitsAt]
      | succ i => simp [setLogitsAt]
    | succ j =>
      cases i with
      | zero => simp [setLogitsAt]
      | succ i =>
        have hi : i < rest.length := by simpa using h
        rw [show setLogitsAt (e :: rest) (j + 1) = e :: setLogitsAt rest j from rfl,
          List.getD_cons_succ, ih j i hi]
        simp [List.getD_cons_succ]

/-- Length of the batch built by the llama_batch_add loop. -/
theorem addedPromptEntries_length (ts : List Token) :
    (addedPromptEntries ts).length = ts.length := by
  simp [addedPromptEntries]

/-- Entry i of the batch built by the llama_batch_add loop. -/
theorem addedPromptEntries_getD (ts : List Token) (i : Nat) (h : i < ts.length) :
    (addedPromptEntries ts).getD i default
      = { token := ts.getD i 0, pos := (i : Int), seqId := 0, logits := false } := by
  have hlen : i < (addedPromptEntries ts).length := by
    rw [addedPromptEntries_length]; exact h
  rw [List.getD_eq_getElem _ _ hlen]
  unfold addedPromptEntries
  simp [List.getD_eq_getElem _ _ h, List.getElem?_eq_getElem h]

/-- C1: evaluation at the failing input. After a successful load, a second
load whose model construction returns null returns false and clears both
handles, but leaves model_loaded true — not the claimed "no model" state. -/
theorem C1_failed_reload_keeps_model_loaded :
    (nativeLoadModel loadEnvModelFail
      (nativeLoadModel loadEnvOk initialRealState "/a.gguf" 2048 4).2
      "/b.gguf" 2048 4).1 = false
    ∧ (nativeLoadModel loadEnvModelFail
        (nativeLoadModel loadEnvOk initialRealState "/a.gguf" 2048 4).2
        "/b.gguf" 2048 4).2
      = { model := none, ctx := none, model_loaded := true,
          cancel_generation := false } := by
  decide

/-- C2: the invariant model_loaded ⇔ (model present ∧ context present) is
violated after a reachable operation sequence: init, successful load, then a
load whose model construction fails leaves model_loaded true with both
handles absent. -/
theorem C2_invariant_violated_after_failed_reload :
    (nativeLoadModel loadEnvModelFail
        (nativeLoadModel loadEnvOk (nativeInit initialRealState).2
          "/a.gguf" 0 0).2 "/b.gguf" 0 0).2.model_loaded = true
    ∧ ¬((nativeLoadModel loadEnvModelFail
          (nativeLoadModel loadEnvOk (nativeInit initialRealState).2
            "/a.gguf" 0 0).2 "/b.gguf" 0 0).2.model ≠ none
        ∧ (nativeLoadModel loadEnvModelFail
            (nativeLoadModel loadEnvOk (nativeInit initialRealState).2
              "/a.gguf" 0 0).2 "/b.gguf" 0 0).2.ctx ≠ none) := by
  decide

/-- C3: generate invoked while no model is loaded returns exactly the
"[Error: Model not loaded]" sentinel and leaves the entire process state
unchanged — handles and cancel flag included — in both compilation modes. -/
theorem C3_generate_not_loaded_unchanged (env : GenEnv) (s : RealState)
    (s2 : StubState) (p : String) (mt : Int) (temp : Float)
    (h : s.model_loaded = false) (h2 : s2.model_loaded = false) :
    nativeGenerate env s p mt temp = (errNotLoaded, s)
    ∧ stubGenerate s2 p mt temp = (errNotLoaded, s2) := by
  constructor
  · simp [nativeGenerate, h]
  · simp [stubGenerate, h2]

/-- Witness for C3 at the fresh states of both modes. -/
theorem C3_witness :
    initialRealState.model_loaded = false
    ∧ initialStubState.model_loaded = false
    ∧ nativeGenerate envTriv initialRealState "hello" 4 0.25
        = (errNotLoaded, initialRealState)
    ∧ stubGenerate initialStubState "hello" 4 0.25
        = (errNotLoaded, initialStubState) :=
  ⟨rfl, rfl,
    (C3_generate_not_loaded_unchanged envTriv initialRealState initialStubState
      "hello" 4 0.25 rfl rfl).1,
    (C3_generate_not_loaded_unchanged envTriv initialRealState initialStubState
      "hello" 4 0.25 rfl rfl).2⟩

/-- C4 counterexample: the claimed stub response is not returned when no model
is loaded (the not-loaded sentinel comes back instead), and for a prompt of
two-byte characters the code keeps the first 50 bytes, not the first 50
characters. -/
theorem C4_counterexample :
    (stubGenerate initialStubState "hi" 8 0.5).1 ≠ specStubResponse "hi"
    ∧ (stubGenerate { model_loaded := true, cancel_generation := false }
        multibytePrompt 8 0.5).1 ≠ specStubResponse multibytePrompt := by
  constructor
  · decide
  · decide

/-- C4 (amended): in stub mode, once a model is logically loaded, generate
returns exactly "[Stub Response] Model not compiled. Your prompt was: "
followed by the first 50 bytes of the UTF-8 prompt followed by "...". -/
theorem C4_stub_response_after_load (s : StubState) (p : String) (mt : Int)
    (temp : Float) (h : s.model_loaded = true) :
    (stubGenerate s p mt temp).1 = stubResponse p := by
  simp [stubGenerate, h]

/-- Witness for C4 after a stub load. -/
theorem C4_witness :
    (stubLoadModel initialStubState "/x.gguf" 0 0).2.model_loaded = true
    ∧ (stubGenerate (stubLoadModel initialStubState "/x.gguf" 0 0).2
        "abc" 16 0.7).1 = stubResponse "abc" :=
  ⟨rfl, C4_stub_response_after_load _ "abc" 16 0.7 rfl⟩

/-- C5 counterexample: a generate call rejected by the not-loaded check does
not reset the cancel flag; a true flag stays true. -/
theorem C5_counterexample :
    (nativeGenerate envTriv
        { initialRealState with cancel_generation := true }
        "x" 1 0.0).2.cancel_generation = true := by
  decide

/-- C5 (amended): a generate call that passes the model-loaded check resets
the cancel flag on entry — its result is independent of the incoming flag
value — and when cancellation is observed at loop iteration k after k clean
steps, generate returns exactly the partial output accumulated by those k
steps, with no error sentinel. -/
theorem C5_cancel_reset_and_early_exit (env : GenEnv) (s : RealState)
    (p : String) (mt : Int) (temp : Float) (b : Bool) (ts : List Token)
    (k : Nat)
    (hl : s.model_loaded = true) (hctx : s.ctx ≠ none) (hm : s.model ≠ none)
    (htok : env.tokenize (utf8 p) = some ts)
    (hpre : env.decode (promptBatch ts) = true)
    (hclean : ∀ j, j < k → cleanStep env (ts.length : Int) j)
    (hk : (k : Int) < mt) (hcancel : env.cancelAt k = true) :
    nativeGenerate env { s with cancel_generation := b } p mt temp
      = nativeGenerate env { s with cancel_generation := false } p mt temp
    ∧ (nativeGenerate env s p mt temp).1 = accumPieces env k := by
  constructor
  · simp [nativeGenerate, hl]
  · have hloop : genLoop env mt.toNat 0 (ts.length : Int) []
        = (accumPieces env k, k) :=
      genLoop_cancel_observed env (ts.length : Int) k mt.toNat hclean
        (by omega) hcancel
    simp [nativeGenerate, hl, hctx, hm, htok, hpre, hloop]

/-- Witness for C5: cancellation observed at the first iteration returns the
empty partial output. -/
theorem C5_witness :
    envCancel.cancelAt 0 = true
    ∧ nativeGenerate envCancel { sLoaded with cancel_generation := true }
        "hi" 3 0.0
      = nativeGenerate envCancel { sLoaded with cancel_generation := false }
        "hi" 3 0.0
    ∧ (nativeGenerate envCancel sLoaded "hi" 3 0.0).1
        = accumPieces envCancel 0 :=
  ⟨rfl,
    (C5_cancel_reset_and_early_exit envCancel sLoaded "hi" 3 0.0 true [1] 0
      rfl (by decide) (by decide) rfl rfl
      (fun j hj => absurd hj (Nat.not_lt_zero j)) (by decide) rfl).1,
    (C5_cancel_reset_and_early_exit envCancel sLoaded "hi" 3 0.0 true [1] 0
      rfl (by decide) (by decide) rfl rfl
      (fun j hj => absurd hj (Nat.not_lt_zero j)) (by decide) rfl).2⟩

/-- C10: in stub mode the not-loaded precondition applies as in real mode:
generate before any load, or after unload, returns the not-loaded sentinel
and never the stub response. -/
theorem C10_stub_generate_requires_load (s : StubState) (p : String)
    (mt : Int) (temp : Float) (h : s.model_loaded = false) :
    (stubGenerate s p mt temp).1 = errNotLoaded
    ∧ (stubGenerate s p mt temp).1 ≠ stubResponse p
    ∧ ∀ s1 : StubState,
        (stubGenerate (stubUnloadModel s1) p mt temp).1 = errNotLoaded := by
  have hout : (stubGenerate s p mt temp).1 = errNotLoaded := by
    simp [stubGenerate, h]
  refine ⟨hout, ?_, ?_⟩
  · rw [hout]
    intro heq
    have hlen := congrArg List.length heq
    have h1 : errNotLoaded.length = 25 := by decide
    have h2 : 25 <
        (utf8 "[Stub Response] Model not compiled. Your prompt was: ").length := by
      decide
    rw [h1] at hlen
    simp only [stubResponse, List.length_append] at hlen
    omega
  · intro s1
    simp [stubGenerate, stubUnloadModel]

/-- Witness for C10 at the fresh stub state and after an unload. -/
theorem C10_witness :
    initialStubState.model_loaded = false
    ∧ (stubGenerate initialStubState "x" 10 0.0).1 = errNotLoaded
    ∧ (stubGenerate
        (stubUnloadModel { model_loaded := true, cancel_generation := false })
        "x" 10 0.0).1 = errNotLoaded :=
  ⟨rfl,
    (C10_stub_generate_requires_load initialStubState "x" 10 0.0 rfl).1,
    (C10_stub_generate_requires_load initialStubState "x" 10 0.0 rfl).2.2 _⟩

/-- C6: a generate call that reaches the decode loop emits at most max_tokens
tokens — its output is the accumulation of some e ≤ max_tokens generation
steps — and a non-positive max_tokens exits the loop immediately with the
empty output. -/
theorem C6_max_tokens_bound (env : GenEnv) (s : RealState) (p : String)
    (mt : Int) (temp : Float) (ts : List Token)
    (hl : s.model_loaded = true) (hctx : s.ctx ≠ none) (hm : s.model ≠ none)
    (htok : env.tokenize (utf8 p) = some ts)
    (hpre : env.decode (promptBatch ts) = true) :
    (∃ e, e ≤ mt.toNat
      ∧ (nativeGenerate env s p mt temp).1 = accumPieces env e)
    ∧ (mt ≤ 0 → (nativeGenerate env s p mt temp).1 = []) := by
  have hout : (nativeGenerate env s p mt temp).1
      = (genLoop env mt.toNat 0 (ts.length : Int) []).1 := by
    simp [nativeGenerate, hl, hctx, hm, htok, hpre]
  constructor
  · obtain ⟨d, hd, hres, _⟩ := genLoop_output_exists env mt.toNat 0 (ts.length : Int)
    have hres2 : (genLoop env mt.toNat 0 (ts.length : Int) []).1
        = accumPieces env d := by
      simpa [accumPieces] using hres
    exact ⟨d, hd, by rw [hout, hres2]⟩
  · intro hmt
    have hz : mt.toNat = 0 := by omega
    rw [hout, hz]
    rfl

/-- Witness for C6 with the end-of-generation token sampled first. -/
theorem C6_witness :
    sLoaded.model_loaded = true
    ∧ ((∃ e, e ≤ (5 : Int).toNat
        ∧ (nativeGenerate envEog sLoaded "hi" 5 0.0).1 = accumPieces envEog e)
      ∧ ((5 : Int) ≤ 0 → (nativeGenerate envEog sLoaded "hi" 5 0.0).1 = [])) :=
  ⟨rfl, C6_max_tokens_bound envEog sLoaded "hi" 5 0.0 [1, 2] rfl (by decide)
    (by decide) rfl rfl⟩

/-- C7: load resolves a non-positive n_ctx to 2048 and a non-positive
n_threads to 4, keeps positive requests as given, applies the same resolved
thread count to both the batch (prefill) and generation thread settings, and
hands exactly these resolved parameters to the context constructor. -/
theorem C7_load_defaults (env : LoadEnv) (s : RealState) (path : String)
    (nCtx nThreads : Int) (m : ModelHandle)
    (hm : env.loadModelFromFile = some m) :
    ((nCtx ≤ 0 → (resolveCtxParams nCtx nThreads).n_ctx = 2048)
      ∧ (0 < nCtx → (resolveCtxParams nCtx nThreads).n_ctx = nCtx)
      ∧ (nThreads ≤ 0 → (resolveCtxParams nCtx nThreads).n_threads = 4)
      ∧ (0 < nThreads → (resolveCtxParams nCtx nThreads).n_threads = nThreads)
      ∧ (resolveCtxParams nCtx nThreads).n_threads_batch
          = (resolveCtxParams nCtx nThreads).n_threads)
    ∧ (nativeLoadModel env s path nCtx nThreads).1
        = (env.newContextWithModel m (resolveCtxParams nCtx nThreads)).isSome := by
  constructor
  · refine ⟨fun h => ?_, fun h => ?_, fun h => ?_, fun h => ?_, rfl⟩
    · have hneg : ¬nCtx > 0 := by omega
      simp [resolveCtxParams, hneg]
    · simp [resolveCtxParams, h]
    · have hneg : ¬nThreads > 0 := by omega
      simp [resolveCtxParams, hneg]
    · simp [resolveCtxParams, h]
  · unfold nativeLoadModel
    rw [hm]
    cases h2 : env.newContextWithModel m (resolveCtxParams nCtx nThreads) <;>
      simp [h2]

/-- Witness for C7 at the default-requesting inputs n_ctx = 0, n_threads = 0. -/
theorem C7_witness :
    loadEnvOk.loadModelFromFile = some 1
    ∧ ((((0 : Int) ≤ 0 → (resolveCtxParams 0 0).n_ctx = 2048)
        ∧ (0 < (0 : Int) → (resolveCtxParams 0 0).n_ctx = 0)
        ∧ ((0 : Int) ≤ 0 → (resolveCtxParams 0 0).n_threads = 4)
        ∧ (0 < (0 : Int) → (resolveCtxParams 0 0).n_threads = 0)
        ∧ (resolveCtxParams 0 0).n_threads_batch
            = (resolveCtxParams 0 0).n_threads)
      ∧ (nativeLoadModel loadEnvOk initialRealState "/m.gguf" 0 0).1
          = (loadEnvOk.newContextWithModel 1 (resolveCtxParams 0 0)).isSome) :=
  ⟨rfl, C7_load_defaults loadEnvOk initialRealState "/m.gguf" 0 0 1 rfl⟩

/-- C8: for a successfully tokenized nonempty prompt the prefill batch holds
all n prompt tokens at their positional indices under sequence id 0, with
only the final token requesting logits, and it is submitted for decoding
before the sampling loop: a prefill decode failure makes generate return the
decoding sentinel without any sampling. -/
theorem C8_prefill_batch (env : GenEnv) (s : RealState) (p : String)
    (mt : Int) (temp : Float) (ts : List Token)
    (hl : s.model_loaded = true) (hctx : s.ctx ≠ none) (hm : s.model ≠ none)
    (htok : env.tokenize (utf8 p) = some ts) (hne : ts ≠ []) :
    (promptBatch ts).length = ts.length
    ∧ (∀ i, i < ts.length → (promptBatch ts).getD i default
        = { token := ts.getD i 0, pos := (i : Int), seqId := 0,
            logits := decide (i + 1 = ts.length) })
    ∧ (env.decode (promptBatch ts) = false →
        nativeGenerate env s p mt temp
          = (errDecoding, { s with cancel_generation := false })) := by
  refine ⟨?_, ?_, ?_⟩
  · rw [promptBatch, setLogitsAt_length, addedPromptEntries_length]
  · intro i hi
    have hi2 : i < (addedPromptEntries ts).length := by
      rw [addedPromptEntries_length]; exact hi
    rw [promptBatch, setLogitsAt_getD _ _ _ hi2, addedPromptEntries_length,
      addedPromptEntries_getD ts i hi]
    by_cases hcase : i = ts.length - 1
    · have h1 : i + 1 = ts.length := by
        have : ts.length ≠ 0 := fun h0 => hne (List.length_eq_zero.mp h0)
        omega
      simp [hcase, h1]
      omega
    · have h1 : i + 1 ≠ ts.length := by omega
      simp [hcase, h1]
  · intro hdec
    simp [nativeGenerate, hl, hctx, hm, htok, hdec]

/-- Witness for C8 on a two-token prompt. -/
theorem C8_witness :
    envPlain.tokenize (utf8 "ab") = some [3, 4]
    ∧ ((promptBatch [3, 4]).length = ([3, 4] : List Token).length
      ∧ (∀ i, i < ([3, 4] : List Token).length →
          (promptBatch [3, 4]).getD i default
            = { token := ([3, 4] : List Token).getD i 0, pos := (i : Int),
                seqId := 0,
                logits := decide (i + 1 = ([3, 4] : List Token).length) })
      ∧ (envPlain.decode (promptBatch [3, 4]) = false →
          nativeGenerate envPlain sLoaded "ab" 4 0.0
            = (errDecoding, { sLoaded with cancel_generation := false }))) :=
  ⟨rfl, C8_prefill_batch envPlain sLoaded "ab" 4 0.0 [3, 4] rfl (by decide)
    (by decide) rfl (by decide)⟩

/-- C9 counterexample: with a 129-byte token piece — one byte more than the
conversion buffer — the sampled non-EOG token contributes nothing to the
output: the piece is dropped whole and the output stays empty even though the
loop completed the step. -/
theorem C9_counterexample :
    (nativeGenerate env129 sLoaded "x" 1 0.0).1 = []
    ∧ env129.isEog (env129.sample 0) = false
    ∧ env129.tokenToPiece (env129.sample 0) = List.replicate 129 65
    ∧ (genLoop env129 1 0 1 []).2 = 1 := by
  refine ⟨by decide, rfl, rfl, by decide⟩

/-- C9 (amended): every sampled non-EOG token whose piece fits the 128-byte
conversion buffer is appended verbatim and in full, and an oversized piece is
dropped whole: the output is the exact concatenation of the kept pieces, so
it is never truncated inside a piece. -/
theorem C9_pieces_appended_whole (env : GenEnv) (s : RealState) (p : String)
    (mt : Int) (temp : Float) (ts : List Token)
    (hl : s.model_loaded = true) (hctx : s.ctx ≠ none) (hm : s.model ≠ none)
    (htok : env.tokenize (utf8 p) = some ts)
    (hpre : env.decode (promptBatch ts) = true) :
    ∃ e, (nativeGenerate env s p mt temp).1
        = ((List.range e).map (keptPiece env)).flatten
      ∧ (∀ k, k < e → env.isEog (env.sample k) = false)
      ∧ ∀ k, k < e → (env.tokenToPiece (env.sample k)).length ≤ 128 →
          keptPiece env k = env.tokenToPiece (env.sample k) := by
  have hout : (nativeGenerate env s p mt temp).1
      = (genLoop env mt.toNat 0 (ts.length : Int) []).1 := by
    simp [nativeGenerate, hl, hctx, hm, htok, hpre]
  obtain ⟨d, _, hres, heog⟩ := genLoop_output_exists env mt.toNat 0 (ts.length : Int)
  have hres2 : (genLoop env mt.toNat 0 (ts.length : Int) []).1
      = accumPieces env d := by
    simpa [accumPieces] using hres
  refine ⟨d, ?_, ?_, ?_⟩
  · rw [hout, hres2, accumPieces_eq_join]
  · intro k hk
    exact heog k (Nat.zero_le k) (by omega)
  · intro k _ hlen
    simp [keptPiece, hlen]

/-- Witness for C9 on a run producing one-byte pieces. -/
theorem C9_witness :
    sLoaded.ctx ≠ none
    ∧ ∃ e, (nativeGenerate envPlain sLoaded "cd" 2 0.0).1
        = ((List.range e).map (keptPiece envPlain)).flatten
      ∧ (∀ k, k < e → envPlain.isEog (envPlain.sample k) = false)
      ∧ ∀ k, k < e →
          (envPlain.tokenToPiece (envPlain.sample k)).length ≤ 128 →
          keptPiece envPlain k = envPlain.tokenToPiece (envPlain.sample k) :=
  ⟨by decide, C9_pieces_appended_whole envPlain sLoaded "cd" 2 0.0 [3, 4] rfl
    (by decide) (by decide) rfl rfl⟩
